import Mathlib

/-!
Verification development for the Heidelberg bus bot (src/heidelberg_bus_bot.py).

The Python module keeps two process-wide dictionaries — `BUS_ROUTES` (the route
catalog) and `WORK_SCHEDULES` (the schedule store) — and a collection of
Telegram handlers.  We embed the data model and the handler logic shallowly:

* Python dicts become insertion-ordered association lists with `dictFind?`
  (membership / `d[k]` lookup) and `dictSet` (`d[k] = v`, replacing in place or
  appending a fresh key at the end), matching CPython dict semantics.
* A `csv.DictReader` row becomes a `Row` of `Option String` fields: `none`
  models a short data row whose missing columns are filled with Python `None`
  (`restval`).  The only operation in `process_schedule_csv` that can raise on
  such a row is `row["routes"].split(",")`, which on `None` raises
  `AttributeError`; we surface raised exceptions as `PyError` values.
* Geographic coordinates are kept as the decimal strings Python would print
  when interpolating the float literals into the Google-Maps link; no claim
  computes with them numerically.
* `reply_text` / `edit_message_text` side effects become returned `Response`
  (text plus inline-keyboard buttons) or `CallbackResult` values; an uncaught
  exception in a handler is the `CallbackResult.raised` constructor.
-/

/-- Station record: a name and the coordinate pair (kept as the decimal strings
Python prints for the float literals). Mirrors the entries of `BUS_ROUTES`. -/
structure Station where
  name : String
  coords : String × String
deriving DecidableEq

/-- One value of the `BUS_ROUTES` dict: display name plus ordered stations. -/
structure RouteData where
  name : String
  stations : List Station
deriving DecidableEq

/-- A stored shift record, as appended by `process_schedule_csv` (lines
334-339).  Fields are `Option String` because a short CSV row stores Python
`None` for its missing trailing columns. -/
structure Shift where
  umlauf : Option String
  start_time : Option String
  end_time : Option String
  routes : List String
deriving DecidableEq

/-- A `csv.DictReader` row for the header `date,umlauf,start_time,end_time,routes`;
`none` models a missing column filled with Python `None`. -/
structure Row where
  date : Option String
  umlauf : Option String
  start_time : Option String
  end_time : Option String
  routes : Option String
deriving DecidableEq

/-- An inline keyboard button: label and `callback_data`. -/
structure Button where
  label : String
  data : String
deriving DecidableEq

/-- A bot reply: the message text plus the flattened inline keyboard (the
Python code builds one single-button row per keyboard entry). -/
structure Response where
  text : String
  buttons : List Button
deriving DecidableEq

/-- Python exceptions that the embedded code can raise. -/
inductive PyError where
  /-- raised by `None.split(",")` when the `routes` column is missing. -/
  | attributeError : PyError
  /-- raised by an out-of-range list index such as `stations[from_idx]`. -/
  | indexError : PyError
deriving DecidableEq

/-- Reply sent by `handle_document` (lines 293-310): success
("Arbeitsplan erfolgreich aktualisiert!"), the error reply
("Fehler beim Verarbeiten der Datei: ..." with `str(e)` interpolated), or the
request for a CSV file ("Bitte lade eine CSV-Datei hoch."). -/
inductive DocReply where
  | updated : DocReply
  | processingError : PyError → DocReply
  | askCsv : DocReply
deriving DecidableEq

/-- Result of `button_callback`: either `edit_message_text` with some text, or
an exception that propagates out of the handler uncaught. -/
inductive CallbackResult where
  | edited : String → CallbackResult
  | raised : PyError → CallbackResult
deriving DecidableEq

/-- Lookup in an insertion-ordered association list; models both `k in d` and
`d[k]` on a Python dict. -/
def dictFind? {α β : Type} [DecidableEq α] (k : α) : List (α × β) → Option β
  | [] => none
  | (k1, v1) :: rest => if k1 = k then some v1 else dictFind? k rest

/-- Assignment `d[k] = v` on a Python dict: replaces the value of an existing
key in place, otherwise appends the new key at the end. -/
def dictSet {α β : Type} [DecidableEq α] (k : α) (v : β) : List (α × β) → List (α × β)
  | [] => [(k, v)]
  | (k1, v1) :: rest => if k1 = k then (k, v) :: rest else (k1, v1) :: dictSet k v rest

/-- Per-driver schedule dict: date (a Python value, possibly `None`) to the
list of shifts. -/
abbrev DSched := List (Option String × List Shift)

/-- The schedule store `WORK_SCHEDULES`: driver id to per-driver schedule. -/
abbrev Store := List (String × DSched)

/-- Stations of route "31" (lines 25-30). -/
def route31 : RouteData :=
  ⟨"Route 31",
    [⟨"Hauptbahnhof", ("49.4037", "8.6756")⟩,
     ⟨"Bismarckplatz", ("49.4094", "8.6947")⟩,
     ⟨"Universitätsplatz", ("49.4119", "8.7089")⟩,
     ⟨"Technologiepark", ("49.4178", "8.6756")⟩]⟩

/-- Stations of route "32" (lines 32-40). -/
def route32 : RouteData :=
  ⟨"Route 32",
    [⟨"Betriebshof", ("49.4178", "8.6756")⟩,
     ⟨"Neuenheimer Feld", ("49.4178", "8.6756")⟩,
     ⟨"Universitätsklinikum", ("49.4178", "8.6756")⟩,
     ⟨"Hans-Thoma-Platz", ("49.4178", "8.6756")⟩]⟩

/-- Stations of route "33" (lines 41-48). -/
def route33 : RouteData :=
  ⟨"Route 33",
    [⟨"Bismarckplatz", ("49.4094", "8.6947")⟩,
     ⟨"Handschuhsheim", ("49.4178", "8.6756")⟩,
     ⟨"Dossenheim", ("49.4178", "8.6756")⟩,
     ⟨"Schriesheim", ("49.4178", "8.6756")⟩]⟩

/-- The route catalog constant `BUS_ROUTES` (lines 22-50). -/
def BUS_ROUTES : List (String × RouteData) :=
  [("31", route31), ("32", route32), ("33", route33)]

/-- The initial schedule store `WORK_SCHEDULES` (lines 54-64). -/
def WORK_SCHEDULES : Store :=
  [("driver123",
    [(some "2025-04-17",
      [⟨some "U1", some "08:00", some "12:00", ["31", "32"]⟩,
       ⟨some "U2", some "13:00", some "17:00", ["33"]⟩]),
     (some "2025-04-18",
      [⟨some "U3", some "09:00", some "14:00", ["32", "33"]⟩])])]

/-- Python `str()` of a value that is either a string or `None`, as used when a
shift field is interpolated into an f-string. -/
def pyStr : Option String → String
  | some s => s
  | none => "None"

/-- Case mapping of Python `str.lower()` restricted to the characters occurring
in this program: ASCII letters plus the German upper-case umlauts. -/
def pyLowerChar (c : Char) : Char :=
  if 'A' ≤ c ∧ c ≤ 'Z' then Char.ofNat (c.toNat + 32)
  else if c = 'Ä' then 'ä'
  else if c = 'Ö' then 'ö'
  else if c = 'Ü' then 'ü'
  else c

/-- Python `str.lower()` (see `pyLowerChar`), over the character list. -/
def pyLower (s : String) : String := String.mk (s.data.map pyLowerChar)

/-- Python `s.split(",")`: cut the character list at every comma, keeping empty
pieces (so the empty string yields one empty piece, as in Python). -/
def pySplitComma (s : String) : List String :=
  (s.data.foldr
    (fun c acc =>
      if c = ',' then [] :: acc
      else
        match acc with
        | [] => [[c]]
        | g :: gs => (c :: g) :: gs)
    [[]]).map (fun cs => String.mk cs)

/-- Python `s.endswith(suffix)`: suffix test on the character list. -/
def pyEndsWith (s suffix : String) : Bool := suffix.data.isSuffixOf s.data

/-- The helper `get_directions` (lines 66-73). -/
def get_directions (from_station to_station : String) : String :=
  s!"Drive from {from_station} to {to_station}. Follow the main road."

/-- The helper `get_map_link` (lines 75-80). -/
def get_map_link (coords : String × String) : String :=
  s!"https://www.google.com/maps?q={coords.1},{coords.2}"

/-- Concatenation of a list of strings in order (used to state what the
formatting loops accumulate). -/
def strJoin : List String → String
  | [] => ""
  | s :: rest => s ++ strJoin rest

/-- The schedule query of `schedule_command` (lines 126-127):
`WORK_SCHEDULES[driver_id][date]` guarded by the two membership tests; the
date key is `some date` because queries always use a real date string. -/
def shiftsFor (driver : String) (date : Option String) (store : Store) : List Shift :=
  (dictFind? date ((dictFind? driver store).getD [])).getD []

/-- The guarded lookup `driver_id in WORK_SCHEDULES and date_str in
WORK_SCHEDULES[driver_id]` followed by `WORK_SCHEDULES[driver_id][date_str]`. -/
def scheduleLookup (driver date : String) (store : Store) : Option (List Shift) :=
  (dictFind? driver store).bind (fun ds => dictFind? (some date) ds)

/-- Lines 330-339 of `process_schedule_csv`: create the date bucket if absent,
then append the shift.  Assumes the driver key exists (guaranteed by the
initialisation at lines 317-319 before any row is processed). -/
def storeAppend (driver : String) (date : Option String) (s : Shift) (store : Store) : Store :=
  let ds := (dictFind? driver store).getD []
  let ds2 := if (dictFind? date ds).isSome then ds else dictSet date ([] : List Shift) ds
  dictSet driver (dictSet date ((dictFind? date ds2).getD [] ++ [s]) ds2) store

/-- The shift dict built at lines 334-339 from a row whose `routes` value is
the string `rs`: the four scalar fields are copied and `rs` is split on ",". -/
def rowShift (r : Row) (rs : String) : Shift :=
  ⟨r.umlauf, r.start_time, r.end_time, pySplitComma rs⟩

/-- The row loop of `process_schedule_csv` (lines 323-339).  Each row is read
and appended in order; a row whose `routes` column is missing (Python `None`)
raises `AttributeError` at `row["routes"].split(",")`, which aborts the loop.
Returns the store as mutated so far together with the exception, if any. -/
def processRows (driver : String) (store : Store) : List Row → Store × Option PyError
  | [] => (store, none)
  | r :: rest =>
    match r.routes with
    | none => (store, some .attributeError)
    | some rs => processRows driver (storeAppend driver r.date (rowShift r rs) store) rest

/-- The function `process_schedule_csv` (lines 312-339), over the already
parsed `csv.DictReader` rows: initialise the driver bucket if absent (lines
317-319), then run the row loop. -/
def process_schedule_csv (rows : List Row) (driver : String) (store : Store) : Store × Option PyError :=
  processRows driver (if (dictFind? driver store).isSome then store else dictSet driver [] store) rows

/-- The document handler `handle_document` (lines 280-310), for a message that
carries a document: a non-`.csv` file name is answered with the CSV request and
nothing else happens; otherwise the rows are processed for "driver123", a
success reply is sent, and any exception is caught and reported — the store
keeps the rows appended before the failure. -/
def handle_document (fileName : String) (rows : List Row) (store : Store) : Store × DocReply :=
  if pyEndsWith fileName ".csv" then
    match process_schedule_csv rows "driver123" store with
    | (s, none) => (s, .updated)
    | (s, some e) => (s, .processingError e)
  else
    (store, .askCsv)

/-- The per-shift text block of `schedule_command` (lines 131-134). -/
def shiftBlock (s : Shift) : String :=
  let routes_str := String.intercalate ", " (s.routes.map (fun r => s!"Linie {r}"))
  s!"Umlauf: {pyStr s.umlauf}\n" ++
  s!"Zeit: {pyStr s.start_time} - {pyStr s.end_time}\n" ++
  s!"Linien: {routes_str}\n\n"

/-- The keyboard built for one shift at lines 137-142 (note the code resets
`keyboard = []` inside the shift loop, so this is rebuilt per shift). -/
def shiftButtons (s : Shift) : List Button :=
  s.routes.map (fun r => Button.mk s!"Details Linie {r}" s!"route_{r}")

/-- The body of `schedule_command` after `date_str` is determined (lines
126-150): on a hit, fold over the shifts accumulating the text while
overwriting the keyboard (the `keyboard = []` reset sits inside the loop);
on a miss, the fixed not-found message with no buttons. -/
def scheduleResponse (driver date : String) (store : Store) : Response :=
  match scheduleLookup driver date store with
  | some schedule =>
    let r := schedule.foldl
      (fun (acc : String × List Button) s => (acc.1 ++ shiftBlock s, shiftButtons s))
      (s!"Arbeitsplan für {date}:\n\n", ([] : List Button))
    ⟨r.1, r.2⟩
  | none => ⟨s!"Kein Arbeitsplan für {date} gefunden.", []⟩

/-- Station name at an index, via a guarded lookup with a harmless default;
the handlers only evaluate it at indices that are in range. -/
def stationName (rd : RouteData) (i : Nat) : String :=
  ((rd.stations.get? i).getD ⟨"", ("", "")⟩).name

/-- Coordinates of the station at an index (see `stationName`). -/
def stationCoords (rd : RouteData) (i : Nat) : String × String :=
  ((rd.stations.get? i).getD ⟨"", ("", "")⟩).coords

/-- The numbered station list of `route_command` (lines 179-183). -/
def detailText (route_id : String) (rd : RouteData) : String :=
  s!"Details für Linie {route_id} ({rd.name}):\n\n" ++ "Stationen:\n" ++
  strJoin (rd.stations.enum.map (fun p => s!"{p.1 + 1}. {p.2.name}\n"))

/-- The adjacent-pair navigation keyboard of `route_command` (lines 186-193). -/
def detailButtons (route_id : String) (rd : RouteData) : List Button :=
  (List.range (rd.stations.length - 1)).map (fun i =>
    Button.mk s!"Navigation: {stationName rd i} → {stationName rd (i + 1)}"
      s!"nav_{route_id}_{i}_{i + 1}")

/-- The handler `route_command` (lines 167-200), over its argument list:
no argument yields the usage reply; an unknown route id yields the not-found
reply; otherwise the station list plus navigation buttons. -/
def route_command (args : List String) : Response :=
  match args with
  | [] => ⟨"Bitte gib eine Liniennummer an. Beispiel: /route 31", []⟩
  | route_id :: _ =>
    match dictFind? route_id BUS_ROUTES with
    | some rd => ⟨detailText route_id rd, detailButtons route_id rd⟩
    | none => ⟨s!"Buslinie {route_id} nicht gefunden.", []⟩

/-- Index pairs visited by the navigation loops of `navigate_command` (lines
239-260): for `f < t` the forward loop `for i in range(f, t)` pairs `i` with
`i + 1`; otherwise the reverse loop `for i in range(f, t, -1)` pairs `i` with
`i - 1` (empty when `f = t`). -/
def navIdxPairs (f t : Nat) : List (Nat × Nat) :=
  if f < t then (List.range' f (t - f)).map (fun i => (i, i + 1))
  else ((List.range' (t + 1) (f - t)).reverse).map (fun i => (i, i - 1))

/-- The consecutive station pairs (current name, next name) emitted by the
navigation rendering between two indices. -/
def navSegments (rd : RouteData) (f t : Nat) : List (String × String) :=
  (navIdxPairs f t).map (fun p => (stationName rd p.1, stationName rd p.2))

/-- One numbered instruction segment of the navigation text (lines 244-249 and
255-260): step line, directions line, and map link of the destination. -/
def segText (rd : RouteData) (num i j : Nat) : String :=
  let cur := stationName rd i
  let nxt := stationName rd j
  s!"{num}. Von {cur} nach {nxt}\n" ++
  s!"   {get_directions cur nxt}\n" ++
  s!"   [Karte]({get_map_link (stationCoords rd j)})\n\n"

/-- The navigation reply text of `navigate_command` (lines 235-260): header
with the user-typed names, then one segment per visited pair; the forward loop
numbers segment `i` as `i + 1`, the reverse loop as `f - i + 1`. -/
def navigationText (route_id from_name to_name : String) (rd : RouteData) (f t : Nat) : String :=
  s!"Navigation für Linie {route_id} von {from_name} nach {to_name}:\n\n" ++
  strJoin ((navIdxPairs f t).map
    (fun p => segText rd (if f < t then p.1 + 1 else f - p.1 + 1) p.1 p.2))

/-- The station-matching loop of `navigate_command` (lines 219-225): one
forward pass that overwrites the index on every case-insensitive name match,
so the result is the last matching index, or `none` when nothing matched
(Python `-1`). -/
def lastMatchIdx (rd : RouteData) (nm : String) : Option Nat :=
  rd.stations.enum.foldl
    (fun acc p => if pyLower p.2.name = pyLower nm then some p.1 else acc) none

/-- The body of `navigate_command` once the three arguments are extracted
(lines 215-266). -/
def navigateRun (route_id from_name to_name : String) : Response :=
  match dictFind? route_id BUS_ROUTES with
  | none => ⟨s!"Buslinie {route_id} nicht gefunden.", []⟩
  | some rd =>
    match lastMatchIdx rd from_name, lastMatchIdx rd to_name with
    | some f, some t => ⟨navigationText route_id from_name to_name rd f t, []⟩
    | some _, none =>
      ⟨"Eine oder beide Stationen wurden nicht gefunden. Bitte überprüfe die Stationsnamen.", []⟩
    | none, _ =>
      ⟨"Eine oder beide Stationen wurden nicht gefunden. Bitte überprüfe die Stationsnamen.", []⟩

/-- The handler `navigate_command` (lines 202-266): fewer than three arguments
yield the usage reply; otherwise `args[0]` is the route id, `args[1]` the start
name and the rest joined with blanks the destination name. -/
def navigate_command (args : List String) : Response :=
  if args.length < 3 then
    ⟨"Bitte gib eine Liniennummer, Start- und Zielstation an. Beispiel: /navigate 31 Hauptbahnhof Bismarckplatz", []⟩
  else
    navigateRun (args.headD "") ((args.drop 1).headD "") (String.intercalate " " (args.drop 2))

/-- The `nav_` branch of `button_callback` (lines 375-397), after the callback
data is split into route id and the two integer indices: the route id is
checked against the catalog, but the station indices are used unguarded —
`stations[from_idx]` / `stations[to_idx]` raise `IndexError` when out of
range (modelled by `CallbackResult.raised`). -/
def navCallback (route_id : String) (from_idx to_idx : Nat) : CallbackResult :=
  match dictFind? route_id BUS_ROUTES with
  | none => .edited s!"Buslinie {route_id} nicht gefunden."
  | some rd =>
    match rd.stations.get? from_idx with
    | none => .raised .indexError
    | some from_station =>
      match rd.stations.get? to_idx with
      | none => .raised .indexError
      | some to_station =>
        .edited (s!"Navigation für Linie {route_id} von {from_station.name} nach {to_station.name}:\n\n" ++
          s!"{get_directions from_station.name to_station.name}\n\n" ++
          s!"[Karte öffnen]({get_map_link to_station.coords})")

/-- Validity of a CSV row: all five columns of the header are present. -/
def rowValid (r : Row) : Bool :=
  r.date.isSome && r.umlauf.isSome && r.start_time.isSome && r.end_time.isSome && r.routes.isSome

theorem dictFind?_dictSet_self {α β : Type} [DecidableEq α] (k : α) (v : β) (d : List (α × β)) :
    dictFind? k (dictSet k v d) = some v := by
  induction d with
  | nil => simp [dictFind?, dictSet]
  | cons p rest ih =>
    obtain ⟨k1, v1⟩ := p
    by_cases h : k1 = k
    · simp [dictFind?, dictSet, h]
    · simp [dictFind?, dictSet, h, ih]

theorem dictFind?_dictSet_ne {α β : Type} [DecidableEq α] {k k2 : α} (v : β) (d : List (α × β))
    (h : k2 ≠ k) : dictFind? k2 (dictSet k v d) = dictFind? k2 d := by
  have h2 : k ≠ k2 := Ne.symm h
  induction d with
  | nil => simp [dictFind?, dictSet, h2]
  | cons p rest ih =>
    obtain ⟨k1, v1⟩ := p
    by_cases h1 : k1 = k
    · subst h1
      simp [dictFind?, dictSet, h2]
    · by_cases h3 : k1 = k2
      · subst h3
        simp [dictFind?, dictSet, h1]
      · simp [dictFind?, dictSet, h1, h3, ih]

theorem shiftsFor_storeAppend_self (driver : String) (date : Option String) (s : Shift)
    (store : Store) :
    shiftsFor driver date (storeAppend driver date s store) =
      shiftsFor driver date store ++ [s] := by
  unfold shiftsFor storeAppend
  rw [dictFind?_dictSet_self]
  cases h : dictFind? date ((dictFind? driver store).getD []) with
  | none => simp [h, dictFind?_dictSet_self]
  | some v => simp [h, dictFind?_dictSet_self]

theorem shiftsFor_storeAppend_ne (driver d2 : String) (date dt2 : Option String) (s : Shift)
    (store : Store) (h : d2 ≠ driver ∨ dt2 ≠ date) :
    shiftsFor d2 dt2 (storeAppend driver date s store) = shiftsFor d2 dt2 store := by
  unfold shiftsFor storeAppend
  rcases h with h | h
  · rw [dictFind?_dictSet_ne _ _ h]
  · by_cases hd : d2 = driver
    · subst hd
      rw [dictFind?_dictSet_self, Option.getD_some, dictFind?_dictSet_ne _ _ h]
      by_cases hif : (dictFind? date ((dictFind? d2 store).getD [])).isSome
      · rw [if_pos hif]
      · rw [if_neg hif, dictFind?_dictSet_ne _ _ h]
    · rw [dictFind?_dictSet_ne _ _ hd]

theorem shiftsFor_driverInit (driver d2 : String) (dt2 : Option String) (store : Store) :
    shiftsFor d2 dt2 (if (dictFind? driver store).isSome then store else dictSet driver [] store) =
      shiftsFor d2 dt2 store := by
  by_cases h : (dictFind? driver store).isSome
  · simp [h]
  · rw [if_neg h]
    by_cases hd : d2 = driver
    · subst hd
      unfold shiftsFor
      rw [dictFind?_dictSet_self]
      rw [Option.not_isSome_iff_eq_none] at h
      simp [h, dictFind?]
    · unfold shiftsFor
      rw [dictFind?_dictSet_ne _ _ hd]

theorem processRows_keeps_shiftsFor (driver : String) (rows : List Row) (store : Store)
    (d2 : String) (dt2 : Option String) :
    shiftsFor d2 dt2 store <+: shiftsFor d2 dt2 (processRows driver store rows).1 := by
  induction rows generalizing store with
  | nil => exact List.prefix_refl _
  | cons r rest ih =>
    cases hr : r.routes with
    | none => simp [processRows, hr]
    | some rs =>
      simp only [processRows, hr]
      refine List.IsPrefix.trans ?_ (ih (storeAppend driver r.date (rowShift r rs) store))
      by_cases h : d2 = driver ∧ dt2 = r.date
      · obtain ⟨h1, h2⟩ := h
        subst h1; subst h2
        rw [shiftsFor_storeAppend_self]
        exact List.prefix_append _ _
      · rw [shiftsFor_storeAppend_ne]
        · push_neg at h
          by_cases h1 : d2 = driver
          · exact Or.inr (h h1)
          · exact Or.inl h1

theorem process_keeps_shiftsFor (driver : String) (rows : List Row) (store : Store)
    (d2 : String) (dt2 : Option String) :
    shiftsFor d2 dt2 store <+: shiftsFor d2 dt2 (process_schedule_csv rows driver store).1 := by
  unfold process_schedule_csv
  refine List.IsPrefix.trans ?_ (processRows_keeps_shiftsFor driver rows _ d2 dt2)
  rw [shiftsFor_driverInit]

theorem processRows_mem_shiftsFor (driver : String) (rows : List Row) (store : Store)
    (hall : ∀ r ∈ rows, (r.routes).isSome) (r : Row) (hr : r ∈ rows) (rs : String)
    (hrs : r.routes = some rs) :
    rowShift r rs ∈ shiftsFor driver r.date (processRows driver store rows).1 := by
  induction rows generalizing store with
  | nil => cases hr
  | cons a rest ih =>
    obtain ⟨ars, has⟩ := Option.isSome_iff_exists.mp (hall a (List.mem_cons_self a rest))
    simp only [processRows, has]
    rcases List.mem_cons.mp hr with he | hm
    · subst he
      obtain rfl := Option.some.inj (has.symm.trans hrs)
      refine List.IsPrefix.subset
        (processRows_keeps_shiftsFor driver rest _ driver r.date) ?_
      rw [shiftsFor_storeAppend_self]
      exact List.mem_append_right _ (List.mem_singleton_self _)
    · exact ih _ (fun x hx => hall x (List.mem_cons_of_mem a hx)) hm

theorem processRows_no_error (driver : String) (rows : List Row) (store : Store)
    (hall : ∀ r ∈ rows, (r.routes).isSome) :
    (processRows driver store rows).2 = none := by
  induction rows generalizing store with
  | nil => rfl
  | cons a rest ih =>
    obtain ⟨ars, has⟩ := Option.isSome_iff_exists.mp (hall a (List.mem_cons_self a rest))
    simp only [processRows, has]
    exact ih _ (fun x hx => hall x (List.mem_cons_of_mem a hx))

theorem processRows_stops_at_bad (driver : String) (store : Store) (pre : List Row) (bad : Row)
    (rest : List Row) (hpre : ∀ r ∈ pre, (r.routes).isSome) (hbad : bad.routes = none) :
    processRows driver store (pre ++ bad :: rest) =
      ((processRows driver store pre).1, some PyError.attributeError) := by
  induction pre generalizing store with
  | nil => simp [processRows, hbad]
  | cons a p ih =>
    obtain ⟨ars, has⟩ := Option.isSome_iff_exists.mp (hpre a (List.mem_cons_self a p))
    simp only [List.cons_append, processRows, has]
    exact ih _ (fun x hx => hpre x (List.mem_cons_of_mem a hx))

theorem navIdxPairs_symm_of_lt (f t : Nat) (h : f < t) :
    navIdxPairs f t = ((navIdxPairs t f).reverse).map Prod.swap := by
  unfold navIdxPairs
  rw [if_pos h, if_neg (by omega)]
  simp only [List.map_reverse, List.reverse_reverse, List.map_map]
  rw [List.range'_eq_map_range, List.range'_eq_map_range, List.map_map, List.map_map]
  apply List.map_congr_left
  intro a ha
  simp only [Function.comp_apply, Prod.swap]
  rw [Prod.mk.injEq]
  constructor
  · omega
  · omega

theorem navIdxPairs_symm (f t : Nat) :
    navIdxPairs f t = ((navIdxPairs t f).reverse).map Prod.swap := by
  rcases Nat.lt_trichotomy f t with h | h | h
  · exact navIdxPairs_symm_of_lt f t h
  · subst h
    simp [navIdxPairs]
  · rw [navIdxPairs_symm_of_lt t f h]
    have hs : (Prod.swap ∘ Prod.swap : Nat × Nat → Nat × Nat) = id := by
      funext p
      simp
    simp only [List.map_reverse, List.reverse_reverse, List.map_map, hs, List.map_id]

theorem scheduleFold_text (l : List Shift) (t : String) (kb : List Button) :
    (l.foldl (fun (acc : String × List Button) s => (acc.1 ++ shiftBlock s, shiftButtons s))
      (t, kb)).1 = t ++ strJoin (l.map shiftBlock) := by
  induction l generalizing t kb with
  | nil => simp [strJoin, String.append_empty]
  | cons a rest ih =>
    rw [List.foldl_cons, List.map_cons]
    show (rest.foldl _ (t ++ shiftBlock a, shiftButtons a)).1 = _
    rw [ih, strJoin, ← String.append_assoc]

theorem scheduleFold_buttons (l : List Shift) (t : String) (kb : List Button) (h : l ≠ []) :
    (l.foldl (fun (acc : String × List Button) s => (acc.1 ++ shiftBlock s, shiftButtons s))
      (t, kb)).2 = shiftButtons (l.getLast h) := by
  induction l generalizing t kb with
  | nil => cases h rfl
  | cons a rest ih =>
    cases rest with
    | nil => rfl
    | cons b r2 =>
      rw [List.foldl_cons]
      rw [List.getLast_cons (by simp)]
      exact ih (t ++ shiftBlock a) (shiftButtons a) (by simp)

theorem lastMatch_foldl_of_no_match {nm : String} (l : List (Nat × Station)) (acc : Option Nat)
    (h : ∀ p ∈ l, pyLower p.2.name ≠ pyLower nm) :
    l.foldl (fun acc p => if pyLower p.2.name = pyLower nm then some p.1 else acc) acc = acc := by
  induction l generalizing acc with
  | nil => rfl
  | cons a rest ih =>
    rw [List.foldl_cons, if_neg (h a (List.mem_cons_self a rest))]
    exact ih acc (fun p hp => h p (List.mem_cons_of_mem a hp))

theorem lastMatchIdx_eq_none (rd : RouteData) (nm : String)
    (h : ∀ st ∈ rd.stations, pyLower st.name ≠ pyLower nm) :
    lastMatchIdx rd nm = none := by
  unfold lastMatchIdx
  apply lastMatch_foldl_of_no_match
  intro p hp
  apply h
  have hmap := List.enum_map_snd rd.stations
  rw [← hmap]
  exact List.mem_map_of_mem Prod.snd hp

theorem navigateRun_station_missing (route_id from_name to_name : String) (rd : RouteData)
    (hfind : dictFind? route_id BUS_ROUTES = some rd)
    (h : lastMatchIdx rd from_name = none ∨ lastMatchIdx rd to_name = none) :
    navigateRun route_id from_name to_name =
      ⟨"Eine oder beide Stationen wurden nicht gefunden. Bitte überprüfe die Stationsnamen.", []⟩ := by
  unfold navigateRun
  rw [hfind]
  dsimp only
  rcases h with h | h
  · rw [h]
  · rw [h]
    cases lastMatchIdx rd from_name <;> rfl

/-- C2: for every valid tuple (date, umlauf, start_time, end_time, routes)
submitted through the CSV ingestion adapter for a driver, a subsequent schedule
query for that driver and date returns a sequence containing a shift whose
umlauf, start time, end time and route-id list equal exactly the submitted
values, the routes field split on comma. -/
theorem C2_valid_row_retrievable :
    ∀ (driver : String) (store : Store) (rows : List Row),
      (∀ r ∈ rows, rowValid r = true) →
      ∀ r ∈ rows, ∀ (d rs : String),
        r.date = some d → r.routes = some rs →
        rowShift r rs ∈ shiftsFor driver (some d) (process_schedule_csv rows driver store).1 := by
  intro driver store rows hall r hr d rs hd hrs
  have hall2 : ∀ x ∈ rows, (x.routes).isSome := by
    intro x hx
    have h := hall x hx
    simp only [rowValid, Bool.and_eq_true] at h
    exact h.2
  have hmem := processRows_mem_shiftsFor driver rows
    (if (dictFind? driver store).isSome then store else dictSet driver [] store)
    hall2 r hr rs hrs
  rw [hd] at hmem
  exact hmem

/-- A concrete valid row used to witness C2. -/
def c2row : Row := ⟨some "2025-06-01", some "U7", some "07:30", some "11:45", some "31,33"⟩

/-- Witness for C2 at a concrete one-row batch over the sample store. -/
theorem C2_witness :
    rowValid c2row = true ∧
      rowShift c2row "31,33" ∈
        shiftsFor "driver123" (some "2025-06-01")
          (process_schedule_csv [c2row] "driver123" WORK_SCHEDULES).1 :=
  ⟨by decide,
    C2_valid_row_retrievable "driver123" WORK_SCHEDULES [c2row] (by decide) c2row (by decide)
      "2025-06-01" "31,33" rfl rfl⟩

/-- C4: recording a shift for a (driver, date) key appends to that key's
existing sequence, and ingesting any further batch never removes or overwrites
any shift previously stored under any key: the stored sequence before
ingestion is always a prefix of the sequence afterwards. -/
theorem C4_store_append_only :
    (∀ (driver : String) (date : Option String) (s : Shift) (store : Store),
      shiftsFor driver date (storeAppend driver date s store) =
        shiftsFor driver date store ++ [s]) ∧
    (∀ (driver : String) (rows : List Row) (store : Store) (d2 : String) (dt2 : Option String),
      shiftsFor d2 dt2 store <+: shiftsFor d2 dt2 (process_schedule_csv rows driver store).1) :=
  ⟨shiftsFor_storeAppend_self, process_keeps_shiftsFor⟩

/-- C9: uploading a document whose file name does not end in ".csv" performs no
ingestion at all: the handler replies with the request for a CSV file and the
schedule store is returned exactly as it was. -/
theorem C9_non_csv_upload_unchanged (fileName : String) (rows : List Row) (store : Store)
    (h : pyEndsWith fileName ".csv" = false) :
    handle_document fileName rows store = (store, DocReply.askCsv) := by
  unfold handle_document
  rw [h]
  rfl

/-- Witness for C9: a ".txt" upload leaves the sample store untouched. -/
theorem C9_witness :
    pyEndsWith "plan.txt" ".csv" = false ∧
      handle_document "plan.txt"
          [⟨some "2025-05-01", some "U1", some "08:00", some "12:00", some "31"⟩]
          WORK_SCHEDULES =
        (WORK_SCHEDULES, DocReply.askCsv) :=
  ⟨by decide,
    C9_non_csv_upload_unchanged "plan.txt"
      [⟨some "2025-05-01", some "U1", some "08:00", some "12:00", some "31"⟩]
      WORK_SCHEDULES (by decide)⟩

/-- C10: CSV ingestion is not atomic on failure: when the batch is a block of
rows that process cleanly followed by a row that raises, the handler reports
the processing error, yet every shift built from the earlier rows has already
been appended and is still stored in the returned store — no rollback. -/
theorem C10_no_rollback_on_error (fileName : String) (store : Store) (pre : List Row)
    (bad : Row) (rest : List Row)
    (hcsv : pyEndsWith fileName ".csv" = true)
    (hpre : ∀ r ∈ pre, (r.routes).isSome)
    (hbad : bad.routes = none) :
    (handle_document fileName (pre ++ bad :: rest) store).2 =
        DocReply.processingError PyError.attributeError ∧
      ∀ r ∈ pre, ∀ rs : String, r.routes = some rs →
        rowShift r rs ∈
          shiftsFor "driver123" r.date (handle_document fileName (pre ++ bad :: rest) store).1 := by
  unfold handle_document
  rw [if_pos hcsv]
  unfold process_schedule_csv
  rw [processRows_stops_at_bad "driver123"
    (if (dictFind? "driver123" store).isSome then store else dictSet "driver123" [] store)
    pre bad rest hpre hbad]
  constructor
  · rfl
  · intro r hr rs hrs
    exact processRows_mem_shiftsFor "driver123" pre _ hpre r hr rs hrs

/-- Rows used in the C10 witness and the C1 counterexample. -/
def rowA : Row := ⟨some "2025-05-01", some "U1", some "08:00", some "12:00", some "31,32"⟩

/-- Row whose `routes` column is missing: processing it raises. -/
def rowBad : Row := ⟨some "2025-05-01", some "U2", some "13:00", some "17:00", none⟩

/-- Valid row placed after the failing row. -/
def rowC : Row := ⟨some "2025-05-02", some "U3", some "09:00", some "14:00", some "33"⟩

/-- Witness for C10 at a concrete three-row batch over the empty store. -/
theorem C10_witness :
    pyEndsWith "plan.csv" ".csv" = true ∧ rowBad.routes = none ∧
      (handle_document "plan.csv" [rowA, rowBad, rowC] []).2 =
          DocReply.processingError PyError.attributeError ∧
      rowShift rowA "31,32" ∈
        shiftsFor "driver123" rowA.date (handle_document "plan.csv" [rowA, rowBad, rowC] []).1 :=
  ⟨by decide, rfl,
    (C10_no_rollback_on_error "plan.csv" [] [rowA] rowBad [rowC] (by decide)
      (by decide) rfl).1,
    (C10_no_rollback_on_error "plan.csv" [] [rowA] rowBad [rowC] (by decide)
      (by decide) rfl).2 rowA (by decide) "31,32" rfl⟩

/-- C1 counterexample: in the concrete batch [rowA, rowBad, rowC] exactly one
row (rowBad, whose `routes` column is missing) is malformed and the others are
valid, yet processing does NOT store every valid row and does NOT report a
row-level error: rowA's shift is stored, but the bucket for rowC's date stays
empty (the loop aborted before reaching it) and the only report is the single
batch-level processing error — contradicting the claim that the malformed row
does not prevent the rows after it from being stored. -/
theorem C1_counterexample :
    (handle_document "plan.csv" [rowA, rowBad, rowC] []).2 =
        DocReply.processingError PyError.attributeError ∧
      rowShift rowA "31,32" ∈
        shiftsFor "driver123" (some "2025-05-01")
          (handle_document "plan.csv" [rowA, rowBad, rowC] []).1 ∧
      shiftsFor "driver123" (some "2025-05-02")
        (handle_document "plan.csv" [rowA, rowBad, rowC] []).1 = [] := by
  decide

/-- C1 (amended): processing a tabular batch stops at the first row that
raises (a row whose `routes` column is missing): the resulting store is
exactly the store after processing only the rows before it — shifts from
earlier rows are stored and kept, the failing row and every later row are not
stored — and a single batch-level error (not a row-level error) is reported.
(A row with an unparseable time is not detected as malformed at all: no field
of a row other than a missing `routes` column can raise, so such a row is
stored as-is.) -/
theorem C1_amended_stop_at_first_raising_row (fileName : String) (store : Store)
    (pre : List Row) (bad : Row) (rest : List Row)
    (hcsv : pyEndsWith fileName ".csv" = true)
    (hpre : ∀ r ∈ pre, (r.routes).isSome)
    (hbad : bad.routes = none) :
    handle_document fileName (pre ++ bad :: rest) store =
      ((process_schedule_csv pre "driver123" store).1,
        DocReply.processingError PyError.attributeError) := by
  unfold handle_document
  rw [if_pos hcsv]
  unfold process_schedule_csv
  rw [processRows_stops_at_bad "driver123"
    (if (dictFind? "driver123" store).isSome then store else dictSet "driver123" [] store)
    pre bad rest hpre hbad]

/-- Witness for the amended C1 at the counterexample batch. -/
theorem C1_witness :
    pyEndsWith "plan.csv" ".csv" = true ∧ rowBad.routes = none ∧
      handle_document "plan.csv" [rowA, rowBad, rowC] [] =
        ((process_schedule_csv [rowA] "driver123" []).1,
          DocReply.processingError PyError.attributeError) :=
  ⟨by decide, rfl,
    C1_amended_stop_at_first_raising_row "plan.csv" [] [rowA] rowBad [rowC] (by decide)
      (by decide) rfl⟩

/-- C3: for every route in the catalog and every pair of valid station indices
i ≠ j, the navigation rendering from i to j emits the same consecutive station
pairs as the navigation from j to i, in reverse order with each pair's
endpoints swapped. -/
theorem C3_navigation_symmetric :
    ∀ p ∈ BUS_ROUTES, ∀ i j : Nat,
      i < p.2.stations.length → j < p.2.stations.length → i ≠ j →
      navSegments p.2 i j = ((navSegments p.2 j i).reverse).map Prod.swap := by
  intro p hp i j hi hj hne
  unfold navSegments
  rw [navIdxPairs_symm i j]
  simp only [List.map_reverse, List.map_map]
  congr 1

/-- Witness for C3 on route "31" between the first and last station. -/
theorem C3_witness :
    ("31", route31) ∈ BUS_ROUTES ∧ (0 : Nat) ≠ 3 ∧
      navSegments route31 0 3 = ((navSegments route31 3 0).reverse).map Prod.swap :=
  ⟨by decide, by decide,
    C3_navigation_symmetric ("31", route31) (by decide) 0 3 (by decide) (by decide) (by decide)⟩

/-- C5 counterexample: the `nav_` callback for the known route "31" with the
out-of-range index 7 (the route has 4 stations) does not return a caller-error
message — it raises an uncaught `IndexError` from the unguarded
`stations[to_idx]` access, contradicting the claim that indices are validated
before the stations are accessed. -/
theorem C5_counterexample :
    navCallback "31" 0 7 = CallbackResult.raised PyError.indexError ∧
      route31.stations.length ≤ 7 := by
  decide

/-- C5 (amended): the `nav_` callback validates only that the route id exists
in the catalog; it performs no range check on `from_index` / `to_index`, and
any out-of-range index reaches the unguarded station access and raises an
uncaught `IndexError`. -/
theorem C5_amended_no_index_validation :
    ∀ (route_id : String) (rd : RouteData), dictFind? route_id BUS_ROUTES = some rd →
      ∀ f t : Nat, rd.stations.length ≤ f ∨ rd.stations.length ≤ t →
        navCallback route_id f t = CallbackResult.raised PyError.indexError := by
  intro rid rd hfind f t h
  unfold navCallback
  rw [hfind]
  dsimp only
  rcases h with h | h
  · rw [List.get?_eq_none.mpr h]
  · cases hf : rd.stations.get? f with
    | none => rfl
    | some st =>
      rw [List.get?_eq_none.mpr h]

/-- Witness for the amended C5 at route "31" with to_index 9. -/
theorem C5_witness :
    dictFind? "31" BUS_ROUTES = some route31 ∧ route31.stations.length ≤ 9 ∧
      navCallback "31" 2 9 = CallbackResult.raised PyError.indexError :=
  ⟨by decide, by decide,
    C5_amended_no_index_validation "31" route31 (by decide) 2 9 (Or.inr (by decide))⟩

/-- C6 counterexample: in the sample store, driver "driver123" on 2025-04-17
has two shifts whose routes reference "31", "32" and "33", yet the rendered
response's button set has no route-detail action for "31" (it only carries the
last shift's routes, because the code re-initialises the keyboard inside the
shift loop) — contradicting the claim that the buttons contain exactly one
action per distinct route referenced across all shifts. -/
theorem C6_counterexample :
    "31" ∈ ((shiftsFor "driver123" (some "2025-04-17") WORK_SCHEDULES).map Shift.routes).flatten ∧
      "route_31" ∉
        (scheduleResponse "driver123" "2025-04-17" WORK_SCHEDULES).buttons.map Button.data := by
  decide

/-- C6 (amended): for every driver and date with at least one stored shift,
the rendered text is the header followed by every shift's umlauf/time/route
block in order, but the button set equals the buttons of the LAST shift's
route list only — one button per entry of that list, with no buttons for the
routes of earlier shifts and no cross-shift deduplication. -/
theorem C6_amended_last_shift_buttons :
    ∀ (driver date : String) (store : Store) (schedule : List Shift)
      (_hfound : scheduleLookup driver date store = some schedule) (hne : schedule ≠ []),
      (scheduleResponse driver date store).text =
          s!"Arbeitsplan für {date}:\n\n" ++ strJoin (schedule.map shiftBlock) ∧
        (scheduleResponse driver date store).buttons = shiftButtons (schedule.getLast hne) := by
  intro driver date store schedule h hne
  unfold scheduleResponse
  rw [h]
  dsimp only
  constructor
  · exact scheduleFold_text schedule _ []
  · exact scheduleFold_buttons schedule _ [] hne

/-- The schedule stored for "driver123" on 2025-04-17 in the sample store. -/
def c6schedule : List Shift :=
  [⟨some "U1", some "08:00", some "12:00", ["31", "32"]⟩,
   ⟨some "U2", some "13:00", some "17:00", ["33"]⟩]

/-- Witness for the amended C6 at the sample driver and date. -/
theorem C6_witness :
    scheduleLookup "driver123" "2025-04-17" WORK_SCHEDULES = some c6schedule ∧
      (scheduleResponse "driver123" "2025-04-17" WORK_SCHEDULES).text =
          "Arbeitsplan für 2025-04-17:\n\n" ++ strJoin (c6schedule.map shiftBlock) ∧
      (scheduleResponse "driver123" "2025-04-17" WORK_SCHEDULES).buttons =
        shiftButtons (c6schedule.getLast (by decide)) :=
  ⟨by decide,
    (C6_amended_last_shift_buttons "driver123" "2025-04-17" WORK_SCHEDULES c6schedule
      (by decide) (by decide)).1,
    (C6_amended_last_shift_buttons "driver123" "2025-04-17" WORK_SCHEDULES c6schedule
      (by decide) (by decide)).2⟩

/-- C7: name-based navigation resolves stations by case-insensitive exact
match; whenever either typed name matches no station of the (known) route, the
handler returns the station-not-found error response instead of proceeding.
Ambiguous matches cannot arise on the shipped catalog: within every route the
lower-cased station names are pairwise distinct, so a matching name determines
a unique station. -/
theorem C7_station_name_resolution :
    (∀ (args : List String) (rd : RouteData),
        3 ≤ args.length →
        dictFind? (args.headD "") BUS_ROUTES = some rd →
        ((∀ st ∈ rd.stations, pyLower st.name ≠ pyLower ((args.drop 1).headD "")) ∨
          (∀ st ∈ rd.stations, pyLower st.name ≠ pyLower (String.intercalate " " (args.drop 2)))) →
        navigate_command args =
          ⟨"Eine oder beide Stationen wurden nicht gefunden. Bitte überprüfe die Stationsnamen.",
            []⟩) ∧
    (∀ p ∈ BUS_ROUTES, (p.2.stations.map (fun st => pyLower st.name)).Nodup) := by
  constructor
  · intro args rd hlen hfind h
    unfold navigate_command
    rw [if_neg (by omega)]
    apply navigateRun_station_missing _ _ _ rd hfind
    rcases h with h | h
    · exact Or.inl (lastMatchIdx_eq_none rd _ h)
    · exact Or.inr (lastMatchIdx_eq_none rd _ h)
  · decide

/-- Witness for C7: the name "Nirgendwo" matches no station of route "31". -/
theorem C7_witness :
    dictFind? "31" BUS_ROUTES = some route31 ∧
      (∀ st ∈ route31.stations, pyLower st.name ≠ pyLower "Nirgendwo") ∧
      navigate_command ["31", "Nirgendwo", "Bismarckplatz"] =
        ⟨"Eine oder beide Stationen wurden nicht gefunden. Bitte überprüfe die Stationsnamen.",
          []⟩ :=
  ⟨by decide, by decide,
    C7_station_name_resolution.1 ["31", "Nirgendwo", "Bismarckplatz"] route31 (by decide)
      (by decide) (Or.inl (by decide))⟩

/-- C8: looking up a route id absent from the catalog yields the not-found
response (the handler is a total function — nothing is raised), and a schedule
query for a (driver, date) pair with no stored shifts yields the fixed
no-schedule message with an empty button set. -/
theorem C8_unknown_lookups_graceful :
    (∀ (route_id : String) (rest : List String),
        dictFind? route_id BUS_ROUTES = none →
        route_command (route_id :: rest) = ⟨s!"Buslinie {route_id} nicht gefunden.", []⟩) ∧
    (∀ (driver date : String) (store : Store),
        scheduleLookup driver date store = none →
        scheduleResponse driver date store = ⟨s!"Kein Arbeitsplan für {date} gefunden.", []⟩) := by
  constructor
  · intro rid rest h
    unfold route_command
    dsimp only
    rw [h]
  · intro driver date store h
    unfold scheduleResponse
    rw [h]

/-- Witness for C8 at the unknown route "99" and an empty date. -/
theorem C8_witness :
    dictFind? "99" BUS_ROUTES = none ∧
      route_command ["99"] = ⟨"Buslinie 99 nicht gefunden.", []⟩ ∧
      scheduleLookup "driver123" "2025-04-20" WORK_SCHEDULES = none ∧
      scheduleResponse "driver123" "2025-04-20" WORK_SCHEDULES =
        ⟨"Kein Arbeitsplan für 2025-04-20 gefunden.", []⟩ :=
  ⟨by decide, C8_unknown_lookups_graceful.1 "99" [] (by decide), by decide,
    C8_unknown_lookups_graceful.2 "driver123" "2025-04-20" WORK_SCHEDULES (by decide)⟩
